import Mathlib

/-!
# Verification of the trading-calendar ICS generator

Shallow embedding of the pipeline in `generate.py` (together with the API
client in `lib/jquants.py`) of the `trading_calendar` repository, and proofs
of the specified properties.

Modelling conventions:
* Python dicts produced by pandas `to_dict(orient='records')` are modelled as
  structures whose fields are `Option`-valued; `none` stands for an absent key
  or a stored `None`.  `item.get(k, d)` becomes `Option.getD`.
* `datetime.strptime(s, "%Y-%m-%d")` is modelled by `parseDate`, which
  implements CPython's `_strptime` regex
  `(?P<Y>\d\d\d\d)-(?P<m>1[0-2]|0[1-9]|[1-9])-(?P<d>3[0-1]|[1-2]\d|0[1-9]|[1-9]| [1-9])`
  (with the full-match/"unconverted data remains" rule and the `datetime`
  constructor's range validation) and returns `none` exactly when `strptime`
  raises `ValueError`; the `try/except` blocks that skip unparseable rows are
  modelled by totality of the `Option`-returning event builders.
* The regex classes `\d` and `\s` follow Python's str-pattern semantics:
  `\d` is every Unicode decimal digit (category Nd, embedded as the table of
  zero-digit code points of its aligned blocks of ten), with `int()` reading
  each digit's decimal value; `\s` is Python's full whitespace set including
  `\x1c`–`\x1f`, `\x85` and `\xa0`.
* `res.json()` raising `JSONDecodeError` on a non-JSON body is modelled by
  the response's `json` field being `none`; the client methods then return
  `none` ("an exception propagates to the caller"), since the code calls
  `res.json()` on both the 200 path and the error-logging path.
* A pandas `DataFrame` is modelled by its list of rows; `drop_duplicates`
  with `subset` and first-occurrence keeping is modelled by `dropDuplicatesBy`.
* HTTP is modelled by oracle functions passed as parameters: the structured
  fetch and the raw `requests.get` used by the retry stage, and a paginated
  GET oracle for the API client.  The retry stage additionally returns the
  trace of arguments of its structured-fetch calls, in order, so that
  invocation counts can be stated.
-/

namespace TradingCalendar

/-- Gregorian leap-year rule, as used by Python `datetime`. -/
def isLeapYear (y : Nat) : Bool :=
  (y % 4 == 0 && y % 100 != 0) || y % 400 == 0

/-- Number of days of month `m` in year `y` (Python `datetime` calendar). -/
def daysInMonth (y m : Nat) : Nat :=
  if m == 2 then (if isLeapYear y then 29 else 28)
  else if m == 4 || m == 6 || m == 9 || m == 11 then 30
  else 31

/-- The zero-digit code point of every Unicode decimal-digit (Nd) block;
each block is the aligned range of ten code points starting here.  This is
the character set matched by Python's str-pattern regex class `\d` and
accepted by `int()`. -/
def pyDigitZeros : List Nat :=
  [0x30, 0x660, 0x6f0, 0x7c0, 0x966, 0x9e6, 0xa66, 0xae6, 0xb66, 0xbe6,
   0xc66, 0xce6, 0xd66, 0xde6, 0xe50, 0xed0, 0xf20, 0x1040, 0x1090, 0x17e0,
   0x1810, 0x1946, 0x19d0, 0x1a80, 0x1a90, 0x1b50, 0x1bb0, 0x1c40, 0x1c50,
   0xa620, 0xa8d0, 0xa900, 0xa9d0, 0xa9f0, 0xaa50, 0xabf0, 0xff10, 0x104a0,
   0x10d30, 0x11066, 0x110f0, 0x11136, 0x111d0, 0x112f0, 0x11450, 0x114d0,
   0x11650, 0x116c0, 0x11730, 0x118e0, 0x11950, 0x11c50, 0x11d50, 0x11da0,
   0x16a60, 0x16ac0, 0x16b50, 0x1d7ce, 0x1d7d8, 0x1d7e2, 0x1d7ec, 0x1d7f6,
   0x1e140, 0x1e2f0, 0x1e950, 0x1fbf0]

/-- The decimal value of a Unicode decimal digit (as read by `int()`), or
`none` when the character is not a decimal digit. -/
def pyDigitVal (c : Char) : Option Nat :=
  (pyDigitZeros.find? (fun z => z ≤ c.toNat && c.toNat ≤ z + 9)).map
    (fun z => c.toNat - z)

/-- Python's str-pattern regex class `\d`: every Unicode decimal digit. -/
def pyIsDigit (c : Char) : Bool :=
  (pyDigitVal c).isSome

/-- An ASCII digit in the regex class `[1-9]`. -/
def isAscii19 (c : Char) : Bool :=
  0x31 ≤ c.toNat && c.toNat ≤ 0x39

/-- Match one literal character at the head of the input. -/
def matchLit (x : Char) : List Char → Option (List Char)
  | [] => none
  | c :: cs => if c = x then some cs else none

/-- The `%Y` group `\d\d\d\d`: exactly four Unicode decimal digits, whose
value is `int()` of the matched text. -/
def matchYearPat : List Char → Option (Nat × List Char)
  | a :: b :: c :: d :: rest =>
    match pyDigitVal a, pyDigitVal b, pyDigitVal c, pyDigitVal d with
    | some va, some vb, some vc, some vd =>
      some (((va * 10 + vb) * 10 + vc) * 10 + vd, rest)
    | _, _, _, _ => none
  | _ => none

/-- The `%m` group `1[0-2]|0[1-9]|[1-9]`, alternatives tried in order.  The
later alternatives can never rescue a failed continuation of an earlier
successful one (the next pattern character is the literal `-`, which no
alternative's consumed characters overlap), so first-match is faithful. -/
def matchMonthPat : List Char → Option (Nat × List Char)
  | [] => none
  | c1 :: rest1 =>
    match c1, rest1 with
    | '1', c2 :: rest2 =>
      if c2 = '0' || c2 = '1' || c2 = '2' then some (10 + (c2.toNat - 0x30), rest2)
      else some (1, rest1)
    | '1', [] => some (1, [])
    | '0', c2 :: rest2 =>
      if isAscii19 c2 then some (c2.toNat - 0x30, rest2) else none
    | '0', [] => none
    | c, _ => if isAscii19 c then some (c.toNat - 0x30, rest1) else none

/-- The `%d` group `3[0-1]|[1-2]\d|0[1-9]|[1-9]| [1-9]`, alternatives tried
in order; the group is last in the pattern, and the end-of-input check is
performed outside the regex, so first-match is faithful.  The value is
`int()` of the matched text (which strips the space of the ` [1-9]`
alternative and reads Unicode digit values in `[1-2]\d`). -/
def matchDayPat : List Char → Option (Nat × List Char)
  | [] => none
  | c1 :: rest1 =>
    match rest1 with
    | c2 :: rest2 =>
      if c1 = '3' && (c2 = '0' || c2 = '1') then
        some (30 + (c2.toNat - 0x30), rest2)
      else if (c1 = '1' || c1 = '2') && pyIsDigit c2 then
        some ((c1.toNat - 0x30) * 10 + (pyDigitVal c2).getD 0, rest2)
      else if c1 = '0' && isAscii19 c2 then
        some (c2.toNat - 0x30, rest2)
      else if isAscii19 c1 then
        some (c1.toNat - 0x30, rest1)
      else if c1 = ' ' && isAscii19 c2 then
        some (c2.toNat - 0x30, rest2)
      else none
    | [] => if isAscii19 c1 then some (c1.toNat - 0x30, []) else none

/-- Model of `datetime.strptime(s, "%Y-%m-%d")`: CPython compiles the format
to the regex `(?P<Y>\d\d\d\d)-(?P<m>1[0-2]|0[1-9]|[1-9])-(?P<d>3[0-1]|[1-2]\d|0[1-9]|[1-9]| [1-9])`,
matches it at the start of the string, raises `ValueError` when the match
fails or leaves unconverted data, and then builds `datetime(year, month,
day)`, which validates `1 ≤ year` and the day against the month length.
Returns `none` exactly when `strptime` raises `ValueError`. -/
def parseDate (s : String) : Option (Nat × Nat × Nat) :=
  match matchYearPat s.data with
  | none => none
  | some (y, r1) =>
    match matchLit '-' r1 with
    | none => none
    | some r2 =>
      match matchMonthPat r2 with
      | none => none
      | some (m, r3) =>
        match matchLit '-' r3 with
        | none => none
        | some r4 =>
          match matchDayPat r4 with
          | none => none
          | some (d, r5) =>
            if r5 = [] then
              if 1 ≤ y && 1 ≤ d && d ≤ daysInMonth y m then some (y, m, d)
              else none
            else none

/-- Python `sep.join(parts)`. -/
def pyJoin (sep : String) : List String → String
  | [] => ""
  | [s] => s
  | s :: rest => s ++ sep ++ pyJoin sep rest

/-- One calendar event, as built by `build_event` in `generate.py`:
summary (`e.name`), begin date (`e.begin`) and `e.uid`. -/
structure CalEvent where
  name : String
  begin_ : Nat × Nat × Nat
  uid : String
deriving DecidableEq, Repr

/-- `build_event(summary, dt, uid)` of `generate.py`. -/
def build_event (summary : String) (dt : Nat × Nat × Nat) (uid : String) : CalEvent :=
  { name := summary, begin_ := dt, uid := uid }

/-- One merged announcement row (a record of the merged DataFrame in
`add_announcement_events`).  Fields are `Option`-valued: `none` models an
absent key or a stored `None`. -/
structure AnnouncementRow where
  Code : Option String := none
  CompanyName : Option String := none
  Date : Option String := none
  AnnouncementDate : Option String := none
  FiscalQuarter : Option String := none
  FiscalYear : Option String := none
deriving DecidableEq, Repr

/-- The deduplication key used by `drop_duplicates(subset=['Code', 'Date'])`. -/
def annKey (r : AnnouncementRow) : Option String × Option String :=
  (r.Code, r.Date)

/-- `drop_duplicates(subset=['Code','Date'], keep='first')`: keep each row
whose key has not been seen before. -/
def dropDuplicatesBy (seen : List (Option String × Option String)) :
    List AnnouncementRow → List AnnouncementRow
  | [] => []
  | r :: rs =>
    if annKey r ∈ seen then dropDuplicatesBy seen rs
    else r :: dropDuplicatesBy (annKey r :: seen) rs

/-- The merge stage of `add_announcement_events` (lines 27–41 of
`generate.py`): collect the nonempty DataFrames, J-Quants rows first and
JPX-Excel rows second, concatenate, and drop duplicate `(Code, Date)` keys
keeping the first occurrence. -/
def mergeAnnouncements (jq_rows jpx_rows : List AnnouncementRow) :
    List AnnouncementRow :=
  let all_dataframes :=
    (if jq_rows.isEmpty then [] else [jq_rows]) ++
    (if jpx_rows.isEmpty then [] else [jpx_rows])
  if all_dataframes.isEmpty then []
  else dropDuplicatesBy [] all_dataframes.flatten

/-- `item.get("Date") or item.get("AnnouncementDate", "")` — Python `or`
falls through to `AnnouncementDate` when `Date` is absent, `None` or the
empty string. -/
def annDateStr (item : AnnouncementRow) : String :=
  match item.Date with
  | some s => if s = "" then item.AnnouncementDate.getD "" else s
  | none => item.AnnouncementDate.getD ""

/-- The loop body of `add_announcement_events` (lines 44–68 of
`generate.py`) for one merged row: `none` when the row is skipped (empty
date string, or `strptime` raising), otherwise the event added to the
calendar. -/
def buildAnnouncementEvent (item : AnnouncementRow) : Option CalEvent :=
  let code := item.Code.getD ""
  let company_name := item.CompanyName.getD ""
  let date_str := annDateStr item
  if date_str = "" then none
  else
    match parseDate date_str with
    | none => none
    | some dt =>
      let fiscal_quarter := item.FiscalQuarter.getD ""
      let fiscal_year := item.FiscalYear.getD ""
      let summary_parts :=
        ["[決算] " ++ company_name ++ " (" ++ code ++ ")"] ++
        (if fiscal_quarter = "" then [] else [fiscal_quarter]) ++
        (if fiscal_year = "" then [] else [fiscal_year])
      let summary := pyJoin " " summary_parts
      let uid := code ++ "-announcement-" ++ date_str
      some (build_event summary dt uid)

/-- The event loop of `add_announcement_events` over the merged list: the
events added to the calendar, in iteration order. -/
def announcementEventsOf (announcement_list : List AnnouncementRow) :
    List CalEvent :=
  announcement_list.filterMap buildAnnouncementEvent

/-- `add_announcement_events`, given the row lists obtained from the two
sources (J-Quants API first, JPX Excel second): merge, dedupe and build the
events. -/
def add_announcement_events (jq_rows jpx_rows : List AnnouncementRow) :
    List CalEvent :=
  announcementEventsOf (mergeAnnouncements jq_rows jpx_rows)

/-- One trading-calendar row.  `none` models an absent key, so that
`item.get("HolidayDivision", 1)` and `item.get("IsTradingDay", True)`
become `Option.getD` with those defaults. -/
structure CalendarRow where
  Date : Option String := none
  HolidayDivision : Option Int := none
  IsTradingDay : Option Bool := none
deriving DecidableEq, Repr

/-- The loop body of `add_holiday_events` (lines 121–135 of `generate.py`)
for one trading-calendar row. -/
def buildHolidayEvent (item : CalendarRow) : Option CalEvent :=
  let date_str := item.Date.getD ""
  let holiday_division := item.HolidayDivision.getD 1
  let is_trading_day := item.IsTradingDay.getD true
  if date_str ≠ "" ∧ (holiday_division = 0 ∨ is_trading_day = false) then
    match parseDate date_str with
    | none => none
    | some dt =>
      some (build_event "[休場日] 取引所休場" dt ("holiday-" ++ date_str))
  else none

/-- `add_holiday_events`: the events added to the calendar for a
trading-calendar row list, in iteration order. -/
def add_holiday_events (calendar_list : List CalendarRow) : List CalEvent :=
  calendar_list.filterMap buildHolidayEvent

/-- Python's str-pattern regex class `\s`: tab through carriage return,
the file/group/record/unit separators `\x1c`–`\x1f`, space, next line
`\x85`, no-break space `\xa0`, and the Unicode space separators. -/
def isSpaceChar (c : Char) : Bool :=
  (0x9 ≤ c.toNat && c.toNat ≤ 0xD) || (0x1C ≤ c.toNat && c.toNat ≤ 0x1F) ||
  c.toNat = 0x20 || c.toNat = 0x85 || c.toNat = 0xA0 || c.toNat = 0x1680 ||
  (0x2000 ≤ c.toNat && c.toNat ≤ 0x200A) || c.toNat = 0x2028 ||
  c.toNat = 0x2029 || c.toNat = 0x202F || c.toNat = 0x205F ||
  c.toNat = 0x3000

/-- Match exactly `n` characters of the class `\d` (Unicode decimal digits)
at the head of the input, returning the matched digits and the rest. -/
def matchNDigits : Nat → List Char → Option (List Char × List Char)
  | 0, cs => some ([], cs)
  | _ + 1, [] => none
  | n + 1, c :: cs =>
    if pyIsDigit c then (matchNDigits n cs).map (fun p => (c :: p.1, p.2))
    else none

/-- Match the regex fragment `\d{4}-\d{2}-\d{2}` at the head of the input,
returning the matched text and the rest. -/
def matchDatePat (cs : List Char) : Option (List Char × List Char) :=
  match matchNDigits 4 cs with
  | none => none
  | some (y, r1) =>
    match matchLit '-' r1 with
    | none => none
    | some r2 =>
      match matchNDigits 2 r2 with
      | none => none
      | some (m, r3) =>
        match matchLit '-' r3 with
        | none => none
        | some r4 =>
          match matchNDigits 2 r4 with
          | none => none
          | some (d, r5) => some (y ++ '-' :: m ++ '-' :: d, r5)

/-- Match the whole pattern
`(\d{4}-\d{2}-\d{2})\s*~\s*(\d{4}-\d{2}-\d{2})` anchored at the head of the
input, returning the two capture groups.  Greedy `\s*` followed by the
non-whitespace literal `~` is deterministic, so no backtracking is needed. -/
def matchRangeAt (cs : List Char) : Option (String × String) :=
  match matchDatePat cs with
  | none => none
  | some (d1, r1) =>
    match matchLit '~' (r1.dropWhile isSpaceChar) with
    | none => none
    | some r3 =>
      match matchDatePat (r3.dropWhile isSpaceChar) with
      | none => none
      | some (d2, _) => some (String.mk d1, String.mk d2)

/-- `re.search`: try the pattern at each start position from the left and
return the first match. -/
def searchRange : List Char → Option (String × String)
  | [] => none
  | c :: cs =>
    match matchRangeAt (c :: cs) with
    | some r => some r
    | none => searchRange cs

/-- `extract_subscription_period` of `generate.py`: search the error message
for `(\d{4}-\d{2}-\d{2})\s*~\s*(\d{4}-\d{2}-\d{2})` and return the two
capture groups of the leftmost match, or `(None, None)`. -/
def extract_subscription_period (error_message : String) :
    Option String × Option String :=
  match searchRange error_message.data with
  | some (a, b) => (some a, some b)
  | none => (none, none)

/-- The raw `requests.get` response used by the retry stage, reduced to the
fields the code reads: `status_code` and the value of the `message` key of
the JSON body (`error_data.get("message", "")`). -/
structure RawResponse where
  status_code : Int
  message : String

/-- `get_trading_calendar_with_retry` of `generate.py`.  The structured
fetch `jq.get_market_trading_calendar` is the oracle `fetch from to`,
returning the pair of the record list and the DataFrame rows; the raw
`requests.get` on the trading-calendar endpoint is the oracle `raw from to`.
Besides the result, the model returns the trace of the arguments of every
structured-fetch invocation, in order. -/
def get_trading_calendar_with_retry
    (fetch : String → String → List CalendarRow × List CalendarRow)
    (raw : String → String → RawResponse)
    (from_date to_date : String) :
    (List CalendarRow × List CalendarRow) × List (String × String) :=
  if (fetch from_date to_date).1.isEmpty then
    if (raw from_date to_date).status_code ≠ 200 then
      match extract_subscription_period (raw from_date to_date).message with
      | (some subscription_from, some subscription_to) =>
        -- Python `if subscription_from and subscription_to`: both truthy,
        -- i.e. neither None nor empty.
        if subscription_from ≠ "" ∧ subscription_to ≠ "" then
          (fetch subscription_from subscription_to,
           [(from_date, to_date), (subscription_from, subscription_to)])
        else (fetch from_date to_date, [(from_date, to_date)])
      | _ => (fetch from_date to_date, [(from_date, to_date)])
    else (fetch from_date to_date, [(from_date, to_date)])
  else (fetch from_date to_date, [(from_date, to_date)])

/-- The parsed JSON body of one API response, reduced to what the client
reads: the row array under the resource key and the optional
`pagination_key`. -/
structure ApiBody (α : Type) where
  rows : List α
  pagination_key : Option String

/-- One HTTP response of the paginated J-Quants API client: the status code
and the result of `res.json()` — `none` when the body is not valid JSON, in
which case `res.json()` raises `JSONDecodeError` wherever the code calls
it. -/
structure ApiResponse (α : Type) where
  status_code : Int
  json : Option (ApiBody α)

/-- The pagination loop of the API client methods: while the last body
carried a `pagination_key`, request the next page (the oracle takes the
optional `pagination_key` parameter), call `res.json()` on it — raising
(`none`) on a non-JSON body, since the loop performs no status check — and
append its rows.  `fuel` bounds the loop so the model is total; the claims
proved below do not depend on the cutoff. -/
def paginateRows {α : Type} (get : Option String → ApiResponse α) :
    Nat → List α → Option String → Option (List α)
  | _, data, none => some data
  | 0, data, some _ => some data
  | fuel + 1, data, some k =>
    match (get (some k)).json with
    | none => none
    | some d => paginateRows get fuel (data ++ d.rows) d.pagination_key

/-- Common shape of the API client resource methods (`get_fins_announcement`,
`get_market_trading_calendar`, …): one GET; on status 200, `res.json()`
(raising on a non-JSON body), then accumulate all pages and return the
records and the DataFrame (modelled by its row list, which
`to_dict(orient='records')` maps back to the record list).  On any other
status the code runs `logger.error(f"API Error: ... - {res.json()}")` — so
`res.json()` is evaluated here too and raises on a non-JSON body — and then
returns `([], pd.DataFrame())`.  A raised exception is `none`. -/
def fetchPaginated {α : Type} (get : Option String → ApiResponse α)
    (fuel : Nat) : Option (List α × List α) :=
  if (get none).status_code = 200 then
    match (get none).json with
    | none => none
    | some d =>
      (paginateRows get fuel d.rows d.pagination_key).map
        (fun data => (data, data))
  else
    match (get none).json with
    | none => none
    | some _ => some ([], [])

/-- `jquants.get_fins_announcement` of `lib/jquants.py`, over a GET oracle
for the `/v1/fins/announcement` resource. -/
def get_fins_announcement (get : Option String → ApiResponse AnnouncementRow)
    (fuel : Nat) : Option (List AnnouncementRow × List AnnouncementRow) :=
  fetchPaginated get fuel

/-- `jquants.get_market_trading_calendar` of `lib/jquants.py`, over a GET
oracle for the `/v1/markets/trading_calendar` resource (with the query
parameters fixed by the caller). -/
def get_market_trading_calendar (get : Option String → ApiResponse CalendarRow)
    (fuel : Nat) : Option (List CalendarRow × List CalendarRow) :=
  fetchPaginated get fuel

/-- Lexicographic order on `(year, month, day)` triples, i.e. chronological
order of calendar dates. -/
def tripleLe (a b : Nat × Nat × Nat) : Bool :=
  decide (a.1 < b.1) ||
  (decide (a.1 = b.1) &&
    (decide (a.2.1 < b.2.1) ||
      (decide (a.2.1 = b.2.1) && decide (a.2.2 ≤ b.2.2))))

/-- `dateLe a b`: both strings parse as `YYYY-MM-DD` dates and `a` is on or
before `b`. -/
def dateLe (a b : String) : Bool :=
  match parseDate a, parseDate b with
  | some x, some y => tripleLe x y
  | _, _ => false

/-- A structured-fetch oracle that returns an empty result for the request
range starting at `2024-01-01` and a nonempty one otherwise. -/
def fetchExpand : String → String → List CalendarRow × List CalendarRow :=
  fun from_ _ =>
    if from_ = "2024-01-01" then ([], [])
    else ([{ Date := some "2024-01-08", HolidayDivision := some 0,
             IsTradingDay := some false }],
          [{ Date := some "2024-01-08", HolidayDivision := some 0,
             IsTradingDay := some false }])

/-- A raw-response oracle whose error message reports a permitted range that
strictly contains the requested one. -/
def rawExpand : String → String → RawResponse :=
  fun _ _ =>
    { status_code := 400,
      message := "This API is not available on your subscription. Your subscription covers the following dates: 2000-01-01 ~ 2030-12-31" }

/-- `sub` occurs as a contiguous sublist of `l` (substring containment). -/
def containsSub (l sub : List Char) : Bool :=
  l.tails.any (fun t => sub.isPrefixOf t)

/-- A holiday-marked trading-calendar row whose date string does not parse. -/
def invalidDateHolidayRow : CalendarRow :=
  { Date := some "invalid-date", HolidayDivision := some 0, IsTradingDay := some false }

/-- The holiday row of the spec's example. -/
def newYearHolidayRow : CalendarRow :=
  { Date := some "2024-01-01", HolidayDivision := some 0, IsTradingDay := some false }

/-- The trading-day row of the spec's example. -/
def tradingDayRow : CalendarRow :=
  { Date := some "2024-01-02", HolidayDivision := some 1, IsTradingDay := some true }

/-- A row with both classification fields absent, exercising the defaults. -/
def defaultFieldsRow : CalendarRow :=
  { Date := some "2024-01-02" }

/-- An announcement row with every field present. -/
def fullAnnouncementRow : AnnouncementRow :=
  { Code := some "1234", CompanyName := some "テスト会社", Date := some "2024-03-31",
    FiscalQuarter := some "第２四半期", FiscalYear := some "2024年3月期" }

/-- An announcement row with both date fields present and nonempty. -/
def dateBothRow : AnnouncementRow :=
  { Code := some "7203", Date := some "2024-05-01", AnnouncementDate := some "2024-06-01" }

/-- An announcement row with an empty `Date` and a nonempty fallback. -/
def dateEmptyRow : AnnouncementRow :=
  { Code := some "7203", Date := some "", AnnouncementDate := some "2024-06-01" }

/-- An announcement row with both date fields empty. -/
def dateNoneRow : AnnouncementRow :=
  { Code := some "7203", Date := some "", AnnouncementDate := some "" }

/-! ## Helper lemmas -/

/-- A nonempty character list makes a nonempty string. -/
theorem mk_ne_empty {d : List Char} (h : d ≠ []) : String.mk d ≠ "" := by
  intro he
  exact h (congrArg String.data he)

/-- The first capture group of a successful `matchDatePat` is nonempty. -/
theorem matchDatePat_ne_nil {cs d r : List Char}
    (h : matchDatePat cs = some (d, r)) : d ≠ [] := by
  unfold matchDatePat at h
  repeat' split at h
  all_goals simp_all
  obtain ⟨rfl, -⟩ := h
  simp

/-- Both capture groups of a successful anchored match are nonempty. -/
theorem matchRangeAt_ne_empty {cs : List Char} {a b : String}
    (h : matchRangeAt cs = some (a, b)) : a ≠ "" ∧ b ≠ "" := by
  unfold matchRangeAt at h
  split at h
  · exact absurd h (by simp)
  next d1 r1 h1 =>
    split at h
    · exact absurd h (by simp)
    next r3 h3 =>
      split at h
      · exact absurd h (by simp)
      next d2 r2 h2 =>
        have hp := Option.some.inj h
        have ha : String.mk d1 = a := congrArg Prod.fst hp
        have hb : String.mk d2 = b := congrArg Prod.snd hp
        subst ha hb
        exact ⟨mk_ne_empty (matchDatePat_ne_nil h1),
          mk_ne_empty (matchDatePat_ne_nil h2)⟩

/-- Both capture groups of a successful search are nonempty. -/
theorem searchRange_ne_empty {cs : List Char} {a b : String}
    (h : searchRange cs = some (a, b)) : a ≠ "" ∧ b ≠ "" := by
  induction cs with
  | nil => simp [searchRange] at h
  | cons c rest ih =>
    rw [searchRange] at h
    revert h
    split
    · next p hp =>
      intro h
      obtain rfl : p = (a, b) := Option.some.inj h
      exact matchRangeAt_ne_empty hp
    · exact fun h => ih h

/-- Successfully extracted period bounds are nonempty strings (each is a
ten-character date), hence truthy in the Python sense. -/
theorem extract_ne_empty {msg f t : String}
    (h : extract_subscription_period msg = (some f, some t)) :
    f ≠ "" ∧ t ≠ "" := by
  unfold extract_subscription_period at h
  split at h
  next a b hs =>
    obtain rfl := Option.some.inj (congrArg Prod.fst h)
    obtain rfl := Option.some.inj (congrArg Prod.snd h)
    exact searchRange_ne_empty hs
  next => exact absurd (congrArg Prod.fst h) (by simp)

/-- Fidelity probes for the `strptime` model, mirroring CPython behaviour:
exactly-four-digit years, space-padded days, single-digit fields, calendar
validation, the unconverted-data rule, and Unicode decimal digits. -/
theorem parseDate_strptime_probes :
    (["2024-01-01", "999-12-31", "99-01-01", "2024-01- 1", "2024-1-1",
      "invalid-date", "2023-02-29", "2024-02-29", "0000-01-01",
      "20244-01-01", "2024- 1-01", "2024-13-01", "2024-00-01", "2024-01-00",
      "2024-01-32", "2024-01-123", "2024-01-010", "２０２４-01-01",
      "2024-01-2９", "2024-11-31", "2024-01-01x", "2024-12-3"].map
        parseDate) =
    [some (2024, 1, 1), none, none, some (2024, 1, 1), some (2024, 1, 1),
     none, none, some (2024, 2, 29), none,
     none, none, none, none, none,
     none, none, none, some (2024, 1, 1),
     some (2024, 1, 29), none, none, some (2024, 12, 3)] := by
  decide

/-- Fidelity probes for the regex classes of the extraction pattern:
Unicode decimal digits in `\d` and Python's full `\s` whitespace set
(here the file separator `\x1c` and the no-break space `\xa0`). -/
theorem extract_regex_probes :
    extract_subscription_period "dates: 2023-09-10\x1c~\xa02025-09-10 x" =
      (some "2023-09-10", some "2025-09-10") ∧
    extract_subscription_period "２０２３-09-10 ~ 2025-09-10" =
      (some "２０２３-09-10", some "2025-09-10") := by
  decide

/-- The search fails exactly when no start position matches the pattern. -/
theorem searchRange_eq_none {cs : List Char}
    (h : ∀ t ∈ cs.tails, matchRangeAt t = none) : searchRange cs = none := by
  induction cs with
  | nil => rfl
  | cons c rest ih =>
    rw [searchRange, h (c :: rest)
      (by rw [List.tails_cons]; exact List.mem_cons_self _ _)]
    exact ih (fun t ht => h t
      (by rw [List.tails_cons]; exact List.mem_cons_of_mem _ ht))

/-- Every emitted announcement event's uid is the Code and the chosen date
string glued around "-announcement-". -/
theorem uid_of_buildAnnouncementEvent {r : AnnouncementRow} {e : CalEvent}
    (h : buildAnnouncementEvent r = some e) :
    e.uid = r.Code.getD "" ++ "-announcement-" ++ annDateStr r := by
  unfold buildAnnouncementEvent at h
  by_cases hd : annDateStr r = ""
  · rw [if_pos hd] at h
    cases h
  · rw [if_neg hd] at h
    revert h
    split
    · intro h
      cases h
    · intro h
      obtain rfl := Option.some.inj h
      rfl

/-- Every emitted holiday event's uid is "holiday-" glued to the row's date
string. -/
theorem uid_of_buildHolidayEvent {r : CalendarRow} {e : CalEvent}
    (h : buildHolidayEvent r = some e) :
    e.uid = "holiday-" ++ r.Date.getD "" := by
  by_cases hc : r.Date.getD "" ≠ "" ∧
      (r.HolidayDivision.getD 1 = 0 ∨ r.IsTradingDay.getD true = false)
  · cases hp : parseDate (r.Date.getD "") with
    | none =>
      have hb : buildHolidayEvent r = none := by
        unfold buildHolidayEvent
        rw [if_pos hc, hp]
      rw [hb] at h
      cases h
    | some dt =>
      have hb : buildHolidayEvent r = some (build_event "[休場日] 取引所休場" dt
          ("holiday-" ++ r.Date.getD "")) := by
        unfold buildHolidayEvent
        rw [if_pos hc, hp]
      rw [hb] at h
      obtain rfl := Option.some.inj h
      rfl
  · have hb : buildHolidayEvent r = none := by
      unfold buildHolidayEvent
      rw [if_neg hc]
    rw [hb] at h
    cases h

/-- The rows of key `k` surviving `dropDuplicatesBy`: none when `k` was
already seen, otherwise exactly the first input row of key `k`. -/
theorem dropDuplicatesBy_filter (k : Option String × Option String)
    (l : List AnnouncementRow) (seen : List (Option String × Option String)) :
    (dropDuplicatesBy seen l).filter (fun x => annKey x == k) =
      if k ∈ seen then []
      else
        match l.find? (fun x => annKey x == k) with
        | some r => [r]
        | none => [] := by
  induction l generalizing seen with
  | nil =>
    simp only [dropDuplicatesBy, List.filter_nil, List.find?_nil]
    split <;> rfl
  | cons r rs ih =>
    by_cases hseen : annKey r ∈ seen
    · rw [dropDuplicatesBy, if_pos hseen, ih seen]
      by_cases hk : annKey r = k
      · have hks : k ∈ seen := hk ▸ hseen
        rw [if_pos hks, if_pos hks]
      · rw [List.find?_cons_of_neg]
        simp only [beq_iff_eq]
        exact hk
    · rw [dropDuplicatesBy, if_neg hseen]
      by_cases hk : annKey r = k
      · have hks : k ∉ seen := hk ▸ hseen
        rw [List.filter_cons_of_pos (by simp [hk]), ih (annKey r :: seen),
          if_pos (by simp [hk]), if_neg hks, List.find?_cons_of_pos _ (by simp [hk])]
      · rw [List.filter_cons_of_neg (by simp [hk]), ih (annKey r :: seen),
          List.find?_cons_of_neg _ (by simp [hk])]
        have hmem : (k ∈ annKey r :: seen) ↔ (k ∈ seen) := by
          constructor
          · intro h
            rcases List.mem_cons.mp h with h | h
            · exact absurd h.symm hk
            · exact h
          · exact fun h => List.mem_cons_of_mem _ h
        by_cases hs2 : k ∈ seen
        · rw [if_pos (hmem.mpr hs2), if_pos hs2]
        · rw [if_neg (fun hx => hs2 (hmem.mp hx)), if_neg hs2]

/-- With both sources nonempty, the merge stage is deduplication of the
concatenation, J-Quants rows first. -/
theorem mergeAnnouncements_eq (jq_rows jpx_rows : List AnnouncementRow)
    (h1 : jq_rows ≠ []) (h2 : jpx_rows ≠ []) :
    mergeAnnouncements jq_rows jpx_rows =
      dropDuplicatesBy [] (jq_rows ++ jpx_rows) := by
  cases jq_rows with
  | nil => exact absurd rfl h1
  | cons a l =>
    cases jpx_rows with
    | nil => exact absurd rfl h2
    | cons b m => simp [mergeAnnouncements]

/-! ## Claims -/

/-- C1: whenever both the J-Quants (primary) rows and the JPX-Excel
(fallback) rows contain a row with identity key `k = (Code, Date)`, exactly
one row with that key survives the merge stage of `add_announcement_events`,
and it is the primary-source row (the first J-Quants row with that key). -/
theorem merge_dedup_prefers_primary
    (jq_rows jpx_rows : List AnnouncementRow)
    (k : Option String × Option String)
    (h1 : ∃ r ∈ jq_rows, annKey r = k) (h2 : ∃ r ∈ jpx_rows, annKey r = k) :
    ∃ r, jq_rows.find? (fun x => annKey x == k) = some r ∧
      (mergeAnnouncements jq_rows jpx_rows).filter (fun x => annKey x == k) =
        [r] := by
  obtain ⟨r1, hr1, hk1⟩ := h1
  obtain ⟨r2, hr2, hk2⟩ := h2
  have hjq : jq_rows ≠ [] := by rintro rfl; simp at hr1
  have hjpx : jpx_rows ≠ [] := by rintro rfl; simp at hr2
  have hfind : (jq_rows.find? (fun x => annKey x == k)).isSome :=
    List.find?_isSome.mpr ⟨r1, hr1, by simp [hk1]⟩
  obtain ⟨r0, hr0⟩ := Option.isSome_iff_exists.mp hfind
  refine ⟨r0, hr0, ?_⟩
  rw [mergeAnnouncements_eq _ _ hjq hjpx, dropDuplicatesBy_filter,
    if_neg (List.not_mem_nil k), List.find?_append, hr0]
  rfl

/-- Witness for C1 at concrete inputs: both sources hold a row with key
`("1301", "2024-05-08")`, and the surviving row is the J-Quants one. -/
theorem merge_dedup_prefers_primary_witness :
    ∃ r, (([{ Code := some "1301", Date := some "2024-05-08",
              CompanyName := some "primary" }] : List AnnouncementRow).find?
            (fun x => annKey x == (some "1301", some "2024-05-08"))) = some r ∧
      (mergeAnnouncements
          [{ Code := some "1301", Date := some "2024-05-08",
             CompanyName := some "primary" }]
          [{ Code := some "1301", Date := some "2024-05-08",
             CompanyName := some "fallback" }]).filter
          (fun x => annKey x == (some "1301", some "2024-05-08")) = [r] :=
  merge_dedup_prefers_primary _ _ _
    ⟨{ Code := some "1301", Date := some "2024-05-08",
       CompanyName := some "primary" }, by simp, rfl⟩
    ⟨{ Code := some "1301", Date := some "2024-05-08",
       CompanyName := some "fallback" }, by simp, rfl⟩

/-- C2 (amended): for every requested range, `get_trading_calendar_with_retry`
performs at most one retry of the structured calendar fetch (at most two
invocations, the first with the caller's range), and any retry uses exactly
the range extracted from the server's error message.  The code does not
check that this range is narrower than the caller's range. -/
theorem retry_at_most_once_with_server_range
    (fetch : String → String → List CalendarRow × List CalendarRow)
    (raw : String → String → RawResponse) (from_date to_date : String) :
    (get_trading_calendar_with_retry fetch raw from_date to_date).2.length ≤ 2 ∧
    (get_trading_calendar_with_retry fetch raw from_date to_date).2.head? =
      some (from_date, to_date) ∧
    (∀ f t, (get_trading_calendar_with_retry fetch raw from_date to_date).2 =
        [(from_date, to_date), (f, t)] →
      extract_subscription_period (raw from_date to_date).message =
        (some f, some t)) := by
  unfold get_trading_calendar_with_retry
  split
  · split
    · split
      · split
        · next =>
          rename_i sf st hex hcond
          refine ⟨by simp, rfl, ?_⟩
          intro f t htr
          have h3 : (sf, st) = (f, t) := (List.cons.inj (List.cons.inj htr).2).1
          obtain rfl : sf = f := congrArg Prod.fst h3
          obtain rfl : st = t := congrArg Prod.snd h3
          exact hex
        · exact ⟨by simp, rfl, by intro f t htr; simp at htr⟩
      · exact ⟨by simp, rfl, by intro f t htr; simp at htr⟩
    · exact ⟨by simp, rfl, by intro f t htr; simp at htr⟩
  · exact ⟨by simp, rfl, by intro f t htr; simp at htr⟩

/-- Counterexample to C2 as stated: with the server reporting the permitted
range 2000-01-01 ~ 2030-12-31 for the requested range 2024-01-01 ~
2024-02-01, the retry is issued with the server's range, which strictly
expands the caller's requested range on both ends (no clamping happens). -/
theorem retry_range_expansion_counterexample :
    (get_trading_calendar_with_retry fetchExpand rawExpand
        "2024-01-01" "2024-02-01").2 =
      [("2024-01-01", "2024-02-01"), ("2000-01-01", "2030-12-31")] ∧
    dateLe "2024-01-01" "2000-01-01" = false ∧
    dateLe "2030-12-31" "2024-02-01" = false := by decide

/-- Witness for C2 at a concrete input: the trace never exceeds two calls,
and the one retry used exactly the server-extracted range. -/
theorem retry_at_most_once_with_server_range_witness :
    (get_trading_calendar_with_retry fetchExpand rawExpand
        "2024-01-01" "2024-02-01").2.length ≤ 2 ∧
    extract_subscription_period
        (rawExpand "2024-01-01" "2024-02-01").message =
      (some "2000-01-01", some "2030-12-31") :=
  ⟨(retry_at_most_once_with_server_range fetchExpand rawExpand
      "2024-01-01" "2024-02-01").1,
   (retry_at_most_once_with_server_range fetchExpand rawExpand
      "2024-01-01" "2024-02-01").2.2 "2000-01-01" "2030-12-31" (by decide)⟩

/-- C3: when the first structured fetch is empty, the raw response is an
error (non-200) and a range is extracted from its message, the structured
fetch is invoked exactly twice, the second time with the extracted range
substituted, and its result is returned; when nothing can be extracted, the
original (empty) first result is returned after a single invocation. -/
theorem retry_invoked_twice_with_extracted_range
    (fetch : String → String → List CalendarRow × List CalendarRow)
    (raw : String → String → RawResponse) (from_date to_date : String) :
    (∀ f t, (fetch from_date to_date).1 = [] →
      (raw from_date to_date).status_code ≠ 200 →
      extract_subscription_period (raw from_date to_date).message =
        (some f, some t) →
      (get_trading_calendar_with_retry fetch raw from_date to_date).2 =
        [(from_date, to_date), (f, t)] ∧
      (get_trading_calendar_with_retry fetch raw from_date to_date).1 =
        fetch f t) ∧
    ((fetch from_date to_date).1 = [] →
      (raw from_date to_date).status_code ≠ 200 →
      extract_subscription_period (raw from_date to_date).message =
        (none, none) →
      (get_trading_calendar_with_retry fetch raw from_date to_date).1 =
        fetch from_date to_date ∧
      (get_trading_calendar_with_retry fetch raw from_date to_date).2 =
        [(from_date, to_date)]) := by
  constructor
  · intro f t hempty hstatus hex
    obtain ⟨hf, ht⟩ := extract_ne_empty hex
    unfold get_trading_calendar_with_retry
    rw [hempty]
    simp only [List.isEmpty_nil, if_true, if_pos hstatus, hex]
    rw [if_pos ⟨hf, ht⟩]
    simp
  · intro hempty hstatus hex
    unfold get_trading_calendar_with_retry
    rw [hempty]
    simp only [List.isEmpty_nil, if_true, if_pos hstatus, hex]
    simp

/-- Witness for C3: a first fetch returning empty, a 400 raw response with a
parseable range, and an unparseable message case. -/
theorem retry_invoked_twice_with_extracted_range_witness :
    ((get_trading_calendar_with_retry fetchExpand rawExpand
        "2024-01-01" "2024-02-01").2 =
      [("2024-01-01", "2024-02-01"), ("2000-01-01", "2030-12-31")] ∧
    (get_trading_calendar_with_retry fetchExpand rawExpand
        "2024-01-01" "2024-02-01").1 =
      fetchExpand "2000-01-01" "2030-12-31") ∧
    ((get_trading_calendar_with_retry fetchExpand
        (fun _ _ => { status_code := 400, message := "Some other error message" })
        "2024-01-01" "2024-02-01").1 =
      fetchExpand "2024-01-01" "2024-02-01" ∧
    (get_trading_calendar_with_retry fetchExpand
        (fun _ _ => { status_code := 400, message := "Some other error message" })
        "2024-01-01" "2024-02-01").2 =
      [("2024-01-01", "2024-02-01")]) :=
  ⟨(retry_invoked_twice_with_extracted_range fetchExpand rawExpand
      "2024-01-01" "2024-02-01").1 "2000-01-01" "2030-12-31"
      (by decide) (by decide) (by decide),
   (retry_invoked_twice_with_extracted_range fetchExpand
      (fun _ _ => { status_code := 400, message := "Some other error message" })
      "2024-01-01" "2024-02-01").2 (by decide) (by decide) (by decide)⟩

/-- C4 (amended): for every trading-calendar row whose date string parses as
YYYY-MM-DD, `add_holiday_events` emits an event for the row if and only if
its HolidayDivision (defaulting to 1 when absent) equals 0 or its
IsTradingDay (defaulting to true when absent) is false. -/
theorem holiday_event_iff_on_parseable_date (r : CalendarRow)
    (dt : Nat × Nat × Nat) (hparse : parseDate (r.Date.getD "") = some dt) :
    (add_holiday_events [r] ≠ [] ↔
      (r.HolidayDivision.getD 1 = 0 ∨ r.IsTradingDay.getD true = false)) := by
  have hne : r.Date.getD "" ≠ "" := by
    intro h
    rw [h, show parseDate "" = none from rfl] at hparse
    cases hparse
  by_cases hcond : r.HolidayDivision.getD 1 = 0 ∨ r.IsTradingDay.getD true = false
  · have hb : buildHolidayEvent r =
        some (build_event "[休場日] 取引所休場" dt ("holiday-" ++ r.Date.getD "")) := by
      unfold buildHolidayEvent
      rw [if_pos ⟨hne, hcond⟩, hparse]
    simp [add_holiday_events, List.filterMap_cons, hb, hcond]
  · have hb : buildHolidayEvent r = none := by
      unfold buildHolidayEvent
      rw [if_neg (fun hx => hcond hx.2)]
    simp [add_holiday_events, List.filterMap_cons, hb, hcond]

/-- Counterexample to C4 as stated: the row with date "invalid-date",
HolidayDivision 0 and IsTradingDay false satisfies the holiday condition but
yields no event (the unparseable date is skipped), so the unrestricted
"if and only if" fails. -/
theorem holiday_event_iff_counterexample :
    ¬ ((add_holiday_events [invalidDateHolidayRow] ≠ []) ↔
        (invalidDateHolidayRow.HolidayDivision.getD 1 = 0 ∨
          invalidDateHolidayRow.IsTradingDay.getD true = false)) := by
  decide

/-- Witness for C4 on the spec's examples: the 2024-01-01 holiday row yields
an event, the 2024-01-02 trading-day row yields none, and a row with both
classification fields absent defaults to a trading day and yields none. -/
theorem holiday_event_iff_on_parseable_date_witness :
    (add_holiday_events [newYearHolidayRow] ≠ []) ∧
    (add_holiday_events [tradingDayRow] = []) ∧
    (add_holiday_events [defaultFieldsRow] = []) := by
  refine ⟨(holiday_event_iff_on_parseable_date newYearHolidayRow (2024, 1, 1)
    (by decide)).mpr (by decide), ?_, ?_⟩
  · by_contra hne
    exact absurd ((holiday_event_iff_on_parseable_date tradingDayRow (2024, 1, 2)
      (by decide)).mp hne) (by decide)
  · by_contra hne
    exact absurd ((holiday_event_iff_on_parseable_date defaultFieldsRow (2024, 1, 2)
      (by decide)).mp hne) (by decide)

/-- C5 (amended): on the actual subscription error message — whose leftmost
date-range pattern occurrence is "2023-09-10 ~ 2025-09-10" —
`extract_subscription_period` returns exactly that pair; any amount of
`\s`-whitespace around the tilde is tolerated, including none and exotic
whitespace such as `\x1c` and `\xa0`; and any message with no occurrence of
the pattern at any position yields `(none, none)`. -/
theorem extract_subscription_period_values :
    extract_subscription_period "Your subscription covers the following dates: 2023-09-10 ~ 2025-09-10. If you want more data, please check other plans:https://jpx-jquants.com/" =
      (some "2023-09-10", some "2025-09-10") ∧
    extract_subscription_period "Some other error message" = (none, none) ∧
    extract_subscription_period "Subscription period: 2024-01-01~2024-12-31" =
      (some "2024-01-01", some "2024-12-31") ∧
    extract_subscription_period "dates: 2023-09-10\x1c~\xa02025-09-10" =
      (some "2023-09-10", some "2025-09-10") ∧
    (∀ msg : String, (∀ t ∈ msg.data.tails, matchRangeAt t = none) →
      extract_subscription_period msg = (none, none)) := by
  refine ⟨by decide, by decide, by decide, by decide, ?_⟩
  intro msg h
  unfold extract_subscription_period
  rw [searchRange_eq_none h]

/-- Counterexample to C5 as stated: a message that contains the substring
"following dates: 2023-09-10 ~ 2025-09-10" but also an earlier date-range
occurrence; `re.search` returns the leftmost match, not the claimed pair. -/
theorem extract_leftmost_counterexample :
    containsSub
        ("2000-01-01 ~ 2000-01-02 following dates: 2023-09-10 ~ 2025-09-10").data
        ("following dates: 2023-09-10 ~ 2025-09-10").data = true ∧
    extract_subscription_period
        "2000-01-01 ~ 2000-01-02 following dates: 2023-09-10 ~ 2025-09-10" ≠
      (some "2023-09-10", some "2025-09-10") ∧
    extract_subscription_period
        "2000-01-01 ~ 2000-01-02 following dates: 2023-09-10 ~ 2025-09-10" =
      (some "2000-01-01", some "2000-01-02") := by
  exact ⟨by decide, by decide, by decide⟩

/-- Witness for C5: the no-pattern conjunct applied to a concrete message. -/
theorem extract_subscription_period_values_witness :
    extract_subscription_period "no period here" = (none, none) :=
  extract_subscription_period_values.2.2.2.2 "no period here" (by decide)

/-- C6: a row whose chosen date string fails to parse as YYYY-MM-DD yields
no event in either event loop (the exception is caught and the row skipped;
totality of the builders models "never raises"), and removing such a row
from the input leaves the remaining rows' events unchanged. -/
theorem unparseable_date_rows_skipped :
    (∀ r : AnnouncementRow, parseDate (annDateStr r) = none →
      buildAnnouncementEvent r = none) ∧
    (∀ (pre post : List AnnouncementRow) (r : AnnouncementRow),
      parseDate (annDateStr r) = none →
      announcementEventsOf (pre ++ r :: post) =
        announcementEventsOf (pre ++ post)) ∧
    (∀ r : CalendarRow, parseDate (r.Date.getD "") = none →
      buildHolidayEvent r = none) ∧
    (∀ (pre post : List CalendarRow) (r : CalendarRow),
      parseDate (r.Date.getD "") = none →
      add_holiday_events (pre ++ r :: post) = add_holiday_events (pre ++ post)) := by
  have A : ∀ r : AnnouncementRow, parseDate (annDateStr r) = none →
      buildAnnouncementEvent r = none := by
    intro r h
    by_cases hd : annDateStr r = ""
    · unfold buildAnnouncementEvent
      rw [if_pos hd]
    · unfold buildAnnouncementEvent
      rw [if_neg hd, h]
  have C : ∀ r : CalendarRow, parseDate (r.Date.getD "") = none →
      buildHolidayEvent r = none := by
    intro r h
    by_cases hc : r.Date.getD "" ≠ "" ∧
        (r.HolidayDivision.getD 1 = 0 ∨ r.IsTradingDay.getD true = false)
    · unfold buildHolidayEvent
      rw [if_pos hc, h]
    · unfold buildHolidayEvent
      rw [if_neg hc]
  refine ⟨A, ?_, C, ?_⟩
  · intro pre post r h
    unfold announcementEventsOf
    rw [List.filterMap_append, List.filterMap_append, List.filterMap_cons, A r h]
  · intro pre post r h
    unfold add_holiday_events
    rw [List.filterMap_append, List.filterMap_append, List.filterMap_cons, C r h]

/-- Witness for C6: rows with date "invalid-date" produce nothing, as both
single-row lists and inside larger lists. -/
theorem unparseable_date_rows_skipped_witness :
    buildAnnouncementEvent { Code := some "1234", Date := some "invalid-date" } = none ∧
    buildHolidayEvent invalidDateHolidayRow = none ∧
    announcementEventsOf
        [{ Code := some "1234", Date := some "invalid-date" }] = [] ∧
    add_holiday_events [invalidDateHolidayRow] = [] :=
  ⟨unparseable_date_rows_skipped.1 _ (by decide),
   unparseable_date_rows_skipped.2.2.1 _ (by decide),
   unparseable_date_rows_skipped.2.1 [] [] _ (by decide),
   unparseable_date_rows_skipped.2.2.2 [] [] _ (by decide)⟩

/-- C7 (amended): a non-200 first response whose body is valid JSON makes
`get_fins_announcement` and `get_market_trading_calendar` return the empty
list and the empty frame instead of raising; when the error body is not
valid JSON, `res.json()` in the logging line raises to the caller instead,
so the unrestricted claim does not hold. -/
theorem non200_json_body_returns_empty :
    (∀ (get : Option String → ApiResponse AnnouncementRow) (fuel : Nat),
      (get none).status_code ≠ 200 → ((get none).json).isSome →
      get_fins_announcement get fuel = some ([], [])) ∧
    (∀ (get : Option String → ApiResponse CalendarRow) (fuel : Nat),
      (get none).status_code ≠ 200 → ((get none).json).isSome →
      get_market_trading_calendar get fuel = some ([], [])) := by
  constructor <;>
  · intro get fuel h hj
    obtain ⟨d, hd⟩ := Option.isSome_iff_exists.mp hj
    first
      | unfold get_fins_announcement fetchPaginated
      | unfold get_market_trading_calendar fetchPaginated
    rw [if_neg h, hd]

/-- Counterexample to C7 as stated: a 502 response with a non-JSON body
(e.g. an HTML gateway page) makes both methods raise `JSONDecodeError` from
the `res.json()` call in the logging line — the result is an exception
(`none`), not the empty result. -/
theorem non200_nonjson_body_raises :
    get_fins_announcement (fun _ => { status_code := 502, json := none }) 0 =
      none ∧
    get_fins_announcement (fun _ => { status_code := 502, json := none }) 0 ≠
      some ([], []) ∧
    get_market_trading_calendar (fun _ => { status_code := 502, json := none }) 0 =
      none ∧
    get_market_trading_calendar (fun _ => { status_code := 502, json := none }) 0 ≠
      some ([], []) :=
  ⟨rfl, by decide, rfl, by decide⟩

/-- Witness for C7: concrete 403 and 500 responses with JSON bodies (the
latter with rows and a pagination key attached) yield the empty pair. -/
theorem non200_json_body_returns_empty_witness :
    get_fins_announcement
        (fun _ => { status_code := 403,
                    json := some { rows := [], pagination_key := none } }) 0 =
      some ([], []) ∧
    get_market_trading_calendar
        (fun _ => { status_code := 500,
                    json := some { rows := [newYearHolidayRow],
                                   pagination_key := some "k" } }) 3 =
      some ([], []) :=
  ⟨non200_json_body_returns_empty.1 _ 0 (by decide) (by decide),
   non200_json_body_returns_empty.2 _ 3 (by decide) (by decide)⟩

/-- C8: every announcement event built from a row with a parseable date has
title "[決算] CompanyName (Code)", extended by a space and the FiscalQuarter
when nonempty and by a space and the FiscalYear when nonempty, and uid
"Code-announcement-date"; every emitted holiday event has the fixed title
"[休場日] 取引所休場" and uid "holiday-date". -/
theorem event_title_and_uid_format :
    (∀ (r : AnnouncementRow) (dt : Nat × Nat × Nat),
      parseDate (annDateStr r) = some dt →
      buildAnnouncementEvent r = some (build_event
        (("[決算] " ++ r.CompanyName.getD "" ++ " (" ++ r.Code.getD "" ++ ")") ++
          (if r.FiscalQuarter.getD "" = "" then ""
           else " " ++ r.FiscalQuarter.getD "") ++
          (if r.FiscalYear.getD "" = "" then ""
           else " " ++ r.FiscalYear.getD ""))
        dt (r.Code.getD "" ++ "-announcement-" ++ annDateStr r))) ∧
    (∀ (r : CalendarRow) (dt : Nat × Nat × Nat),
      parseDate (r.Date.getD "") = some dt →
      (r.HolidayDivision.getD 1 = 0 ∨ r.IsTradingDay.getD true = false) →
      add_holiday_events [r] =
        [build_event "[休場日] 取引所休場" dt ("holiday-" ++ r.Date.getD "")]) := by
  constructor
  · intro r dt hp
    have hne : annDateStr r ≠ "" := by
      intro h
      rw [h, show parseDate "" = none from rfl] at hp
      cases hp
    unfold buildAnnouncementEvent
    rw [if_neg hne, hp]
    by_cases hq : r.FiscalQuarter.getD "" = "" <;>
      by_cases hy : r.FiscalYear.getD "" = "" <;>
        simp [pyJoin, build_event, hq, hy, String.append_assoc,
          String.append_empty] <;>
          rw [show (") " : String) = ")" ++ " " from rfl, String.append_assoc]
  · intro r dt hp hcond
    have hne : r.Date.getD "" ≠ "" := by
      intro h
      rw [h, show parseDate "" = none from rfl] at hp
      cases hp
    have hb : buildHolidayEvent r =
        some (build_event "[休場日] 取引所休場" dt ("holiday-" ++ r.Date.getD "")) := by
      unfold buildHolidayEvent
      rw [if_pos ⟨hne, hcond⟩, hp]
    simp [add_holiday_events, List.filterMap_cons, hb]

/-- Witness for C8: a full announcement row and the New Year holiday row
produce exactly the documented titles and uids. -/
theorem event_title_and_uid_format_witness :
    buildAnnouncementEvent fullAnnouncementRow =
      some (build_event "[決算] テスト会社 (1234) 第２四半期 2024年3月期"
        (2024, 3, 31) "1234-announcement-2024-03-31") ∧
    add_holiday_events [newYearHolidayRow] =
      [build_event "[休場日] 取引所休場" (2024, 1, 1) "holiday-2024-01-01"] := by
  constructor
  · rw [event_title_and_uid_format.1 fullAnnouncementRow (2024, 3, 31) (by decide)]
    decide
  · exact event_title_and_uid_format.2 newYearHolidayRow (2024, 1, 1)
      (by decide) (by decide)

/-- C9: every emitted event's uid is a function of the event kind and
identity key alone — for announcements of the Code and the chosen date
string, for holidays of the date string — so identical input rows always
reproduce identical uids. -/
theorem uid_function_of_kind_and_key :
    (∀ (r : AnnouncementRow) (e : CalEvent), buildAnnouncementEvent r = some e →
      e.uid = r.Code.getD "" ++ "-announcement-" ++ annDateStr r) ∧
    (∀ (r : CalendarRow) (e : CalEvent), buildHolidayEvent r = some e →
      e.uid = "holiday-" ++ r.Date.getD "") :=
  ⟨fun _ _ h => uid_of_buildAnnouncementEvent h,
   fun _ _ h => uid_of_buildHolidayEvent h⟩

/-- Witness for C9 at concrete emitted events. -/
theorem uid_function_of_kind_and_key_witness :
    CalEvent.uid (build_event "[決算] テスト会社 (1234) 第２四半期 2024年3月期"
        (2024, 3, 31) "1234-announcement-2024-03-31") =
      fullAnnouncementRow.Code.getD "" ++ "-announcement-" ++
        annDateStr fullAnnouncementRow ∧
    CalEvent.uid (build_event "[休場日] 取引所休場" (2024, 1, 1)
        "holiday-2024-01-01") =
      "holiday-" ++ newYearHolidayRow.Date.getD "" :=
  ⟨uid_function_of_kind_and_key.1 fullAnnouncementRow _ (by decide),
   uid_function_of_kind_and_key.2 newYearHolidayRow _ (by decide)⟩

/-- C10: the event date string is the row's Date field whenever it is
present and nonempty; only an absent, `None` or empty Date falls back to
AnnouncementDate; the uid embeds whichever string was chosen; and a row
with both fields absent or empty produces no event. -/
theorem date_field_fallback :
    (∀ (r : AnnouncementRow) (s : String), r.Date = some s → s ≠ "" →
      annDateStr r = s) ∧
    (∀ r : AnnouncementRow, (r.Date = none ∨ r.Date = some "") →
      annDateStr r = r.AnnouncementDate.getD "") ∧
    (∀ (r : AnnouncementRow) (e : CalEvent), buildAnnouncementEvent r = some e →
      e.uid = r.Code.getD "" ++ "-announcement-" ++ annDateStr r) ∧
    (∀ r : AnnouncementRow, (r.Date = none ∨ r.Date = some "") →
      (r.AnnouncementDate = none ∨ r.AnnouncementDate = some "") →
      buildAnnouncementEvent r = none) := by
  refine ⟨?_, ?_, fun _ _ h => uid_of_buildAnnouncementEvent h, ?_⟩
  · intro r s hd hne
    simp [annDateStr, hd, hne]
  · intro r hd
    rcases hd with h | h <;> simp [annDateStr, h]
  · intro r hd ha
    have h1 : annDateStr r = "" := by
      rcases hd with h | h <;> rcases ha with h2 | h2 <;> simp [annDateStr, h, h2]
    unfold buildAnnouncementEvent
    rw [if_pos h1]

/-- Witness for C10: Date wins when nonempty, the empty Date falls back to
AnnouncementDate, and a row with both empty yields no event. -/
theorem date_field_fallback_witness :
    annDateStr dateBothRow = "2024-05-01" ∧
    annDateStr dateEmptyRow = dateEmptyRow.AnnouncementDate.getD "" ∧
    buildAnnouncementEvent dateNoneRow = none :=
  ⟨date_field_fallback.1 dateBothRow "2024-05-01" rfl (by decide),
   date_field_fallback.2.1 dateEmptyRow (Or.inr rfl),
   date_field_fallback.2.2.2 dateNoneRow (Or.inr rfl) (Or.inr rfl)⟩

end TradingCalendar
